import Mathlib

/-! Formal model of the racemates repository: the pro-driver list manager
(files prolist_manager.py and racemates/config_manager.py) and the telemetry
listener (racemates/telemetry_listener.py), together with theorems checking
the specification's claims against the code. -/

/-- Model of a Python value as it occurs in the JSON payloads and live
telemetry records handled by the program: an integer, a string, or None. -/
inductive PyVal where
  | vInt (n : Int)
  | vStr (s : String)
  | vNone
  deriving DecidableEq, Repr

/-- Decimal digits of a natural number, least-significant digit first; empty
for zero. Building block for the model of Python str on integers. -/
def natDigitsRev (n : Nat) : List Char :=
  if h : n = 0 then []
  else Nat.digitChar (n % 10) :: natDigitsRev (n / 10)
termination_by n
decreasing_by exact Nat.div_lt_self (Nat.pos_of_ne_zero h) (by norm_num)

/-- Python str applied to a nonnegative integer. -/
def pyStrNat (n : Nat) : String :=
  if n = 0 then "0" else String.mk (natDigitsRev n).reverse

/-- Python str applied to an integer: decimal digits, with a leading minus
sign for negative values. -/
def pyStrInt : Int → String
  | Int.ofNat m => pyStrNat m
  | Int.negSucc m => "-" ++ pyStrNat (m + 1)

/-- Value of a decimal digit character; fails on any other character. -/
def digitVal (c : Char) : Option Nat :=
  if ('0' ≤ c ∧ c ≤ '9') then some (c.toNat - 48) else Option.none

/-- Accumulating decimal parse of a digit list, most significant first. -/
def parseDigitsAcc (acc : Nat) : List Char → Option Nat
  | [] => some acc
  | c :: cs =>
    match digitVal c with
    | some d => parseDigitsAcc (acc * 10 + d) cs
    | Option.none => Option.none

/-- Parse a nonempty all-digit list as a natural number; fails otherwise. -/
def parseNatDigits (cs : List Char) : Option Nat :=
  match cs with
  | [] => Option.none
  | _ :: _ => parseDigitsAcc 0 cs

/-- Python int applied to the characters of a string: an optional sign
followed by decimal digits. The model omits Python's tolerance for
surrounding whitespace and digit-group underscores, which only widens the
accepted set and is never produced by the program's own serialisation. -/
def pyIntOfChars : List Char → Option Int
  | [] => Option.none
  | c :: rest =>
    if c = '-' then (parseNatDigits rest).map (fun n => -(Int.ofNat n))
    else if c = '+' then (parseNatDigits rest).map (fun n => Int.ofNat n)
    else (parseNatDigits (c :: rest)).map (fun n => Int.ofNat n)

/-- Python int applied to a string. -/
def pyIntOfStr (s : String) : Option Int :=
  pyIntOfChars s.data

/-- Python int applied to a value: the identity on ints, a decimal parse on
strings (ValueError on failure, modelled as Option.none), and a TypeError
(also Option.none) on None. -/
def pyToInt : PyVal → Option Int
  | PyVal.vInt n => some n
  | PyVal.vStr s => pyIntOfStr s
  | PyVal.vNone => Option.none

/-- Python str applied to a value; total, as in Python. -/
def pyToStr : PyVal → String
  | PyVal.vInt n => pyStrInt n
  | PyVal.vStr s => s
  | PyVal.vNone => "None"

/-! ## Reference cache and service (prolist_manager.py, config_manager.py) -/

/-- On-disk state of the pro-driver cache file (pro_drivers_cache.json):
absent, present but not parseable as a JSON object (json.load raising, or
data.items() failing), or a JSON object of string keys to values. The raw
field of the malformed case keeps the file content abstract, so unchanged
file content is representable exactly. -/
inductive CacheFile where
  | missing
  | malformed (raw : String)
  | object (entries : List (String × PyVal))
  deriving DecidableEq, Repr

/-- Key membership in an association list modelling a Python dict keyed by
integers. -/
def hasKey (d : List (Int × String)) (k : Int) : Bool :=
  d.any (fun p => p.1 == k)

/-- Python dict assignment d[k] = v on an insertion-ordered dict: an existing
key keeps its position and takes the new value, a new key is appended. -/
def dictInsert (d : List (Int × String)) (k : Int) (v : String) : List (Int × String) :=
  if hasKey d k then d.map (fun p => if p.1 == k then (k, v) else p)
  else d ++ [(k, v)]

/-- Body of the dict comprehension in _read_cache: for each JSON entry, int
applied to the key and str applied to the value. A key that fails to parse
aborts the whole comprehension (the exception discards the partial result),
modelled as Option.none. -/
def readEntries : List (String × PyVal) → List (Int × String) → Option (List (Int × String))
  | [], acc => some acc
  | (k, v) :: rest, acc =>
    match pyIntOfStr k with
    | some u => readEntries rest (dictInsert acc u (pyToStr v))
    | Option.none => Option.none

/-- Model of _read_cache in prolist_manager.py: missing file or any parse
failure yields the empty mapping, otherwise the JSON object's entries with
keys parsed by int and values converted by str. -/
def read_cache : CacheFile → List (Int × String)
  | CacheFile.missing => []
  | CacheFile.malformed _ => []
  | CacheFile.object entries => (readEntries entries []).getD []

/-- Model of _write_cache in prolist_manager.py: the mapping is serialised as
a JSON object whose keys are str of the integer keys. -/
def write_cache (m : List (Int × String)) : CacheFile :=
  CacheFile.object (m.map (fun p => (pyStrInt p.1, PyVal.vStr p.2)))

/-- Persistent state touched by the pro-list manager: the cache file and the
last_pro_update entry of config.json (Option.none models an absent or
non-numeric entry, which get_last_pro_update reads as 0). Timestamps are
rationals standing for the float seconds of time.time(). -/
structure ProState where
  cacheFile : CacheFile
  lastProUpdate : Option ℚ
  deriving DecidableEq, Repr

/-- Model of get_last_pro_update in config_manager.py. -/
def get_last_pro_update (st : ProState) : ℚ :=
  st.lastProUpdate.getD 0

/-- Model of set_last_pro_update in config_manager.py. -/
def set_last_pro_update (st : ProState) (t : ℚ) : ProState :=
  { st with lastProUpdate := some t }

/-- One record of the remote JSON array, as seen by the parse loop of
fetch_and_cache_pro_list: the UserID and Name fields, each either absent
(a KeyError on item lookup) or some Python value. -/
structure FetchItem where
  userID : Option PyVal
  name : Option PyVal
  deriving DecidableEq, Repr

/-- Outcome of the requests.get call in fetch_and_cache_pro_list: the request
itself failed (network error or timeout), or an HTTP response arrived with
the given status code and, when the payload parsed as a JSON array, its
records (Option.none models response.json() raising on a malformed body). -/
inductive FetchOutcome where
  | netError
  | httpResponse (status : Nat) (body : Option (List FetchItem))
  deriving DecidableEq, Repr

/-- One iteration of the parse loop in fetch_and_cache_pro_list: a record
missing UserID or Name, or whose UserID does not convert with int, is
skipped (KeyError, ValueError, TypeError are caught). -/
def parseItem (it : FetchItem) : Option (Int × String) :=
  match it.userID with
  | Option.none => Option.none
  | some u =>
    match pyToInt u with
    | Option.none => Option.none
    | some uid =>
      match it.name with
      | Option.none => Option.none
      | some nv => some (uid, pyToStr nv)

/-- The parse loop of fetch_and_cache_pro_list over the whole JSON array,
building the pro_map dict in order. -/
def parseItems (items : List FetchItem) : List (Int × String) :=
  items.foldl
    (fun m it =>
      match parseItem it with
      | some p => dictInsert m p.1 p.2
      | Option.none => m)
    []

/-- Whether the fetch reaches the parse loop: the request succeeded, the
status code did not make raise_for_status raise (it raises exactly for
status codes in [400, 600)), and the body parsed as JSON. -/
def fetchSucceeds : FetchOutcome → Bool
  | FetchOutcome.netError => false
  | FetchOutcome.httpResponse status body =>
    (!(decide (400 ≤ status ∧ status < 600))) && body.isSome

/-- Model of fetch_and_cache_pro_list in prolist_manager.py. On any
exception (network failure, raise_for_status on a 4xx/5xx status, or a
malformed JSON body) the function returns the current cache contents and
changes nothing; on success it writes the parsed mapping to the cache file,
stamps last_pro_update with the current time, and returns the mapping. -/
def fetch_and_cache_pro_list (st : ProState) (now : ℚ) (f : FetchOutcome) :
    List (Int × String) × ProState :=
  match f with
  | FetchOutcome.netError => (read_cache st.cacheFile, st)
  | FetchOutcome.httpResponse status body =>
    if 400 ≤ status ∧ status < 600 then (read_cache st.cacheFile, st)
    else
      match body with
      | Option.none => (read_cache st.cacheFile, st)
      | some items =>
        let pro_map := parseItems items
        let st1 : ProState := { st with cacheFile := write_cache pro_map }
        let st2 : ProState := set_last_pro_update st1 now
        (pro_map, st2)

/-- The refresh test of get_pro_list: force_refresh, or more than the
24-hour refresh interval elapsed since the stored last update (strict
comparison, as in the source). -/
def refreshCondition (st : ProState) (now : ℚ) (force : Bool) : Bool :=
  force || decide (now - get_last_pro_update st > 24 * 3600)

/-- Result of one call to get_pro_list: the mapping returned, the persistent
state afterwards, and an instrumentation bit recording whether the call
entered the refresh branch (and hence performed the network request). -/
structure ProResult where
  mapping : List (Int × String)
  state : ProState
  fetchAttempted : Bool
  deriving DecidableEq, Repr

/-- Model of get_pro_list in prolist_manager.py. The two calls the source
makes to time.time() within one invocation are modelled by the single
instant now. The fetch outcome f stands for the behaviour of the network on
this call; when the refresh branch is not taken the result does not depend
on it. -/
def get_pro_list (st : ProState) (now : ℚ) (force : Bool) (f : FetchOutcome) :
    ProResult :=
  if refreshCondition st now force then
    if (fetch_and_cache_pro_list st now f).1.isEmpty then
      { mapping := read_cache (fetch_and_cache_pro_list st now f).2.cacheFile,
        state := (fetch_and_cache_pro_list st now f).2, fetchAttempted := true }
    else
      { mapping := (fetch_and_cache_pro_list st now f).1,
        state := (fetch_and_cache_pro_list st now f).2, fetchAttempted := true }
  else
    { mapping := read_cache st.cacheFile, state := st, fetchAttempted := false }

/-! ## Telemetry listener (racemates/telemetry_listener.py) -/

/-- One record of the DriverInfo Drivers array, as read by the tick loop:
the result of drv.get with key UserID (PyVal.vNone when the key is absent,
matching Python's default) and the result of drv.get with key CarNumber and
default empty string. -/
structure Driver where
  userID : PyVal
  carNumber : PyVal
  deriving DecidableEq, Repr

/-- One element of the pro_drivers list the listener builds: the dict with
keys UserID, Name, Description and CarNumber. -/
structure ProEntry where
  userID : Int
  name : String
  description : String
  carNumber : PyVal
  deriving DecidableEq, Repr

/-- Attribute lookup entry.get on a value of Python type str: str has no
attribute get, so the call raises AttributeError for every string and every
argument, modelled as Option.none. The values of the dict returned by
get_pro_list are strings, which is what the listener applies this to. -/
def strDictGet (s : String) (key : String) (default : String) : Option String :=
  Option.none

/-- One iteration of the driver loop in TelemetryListener._run: convert the
UserID with int, keep the driver only if the id is a key of pro_map, then
build the entry dict; any exception in the body (including the
AttributeError from entry.get on a string) skips the driver. -/
def processDriver (proMap : List (Int × String)) (d : Driver) : Option ProEntry :=
  match pyToInt d.userID with
  | Option.none => Option.none
  | some uid =>
    match proMap.lookup uid with
    | Option.none => Option.none
    | some entry =>
      match strDictGet entry "Name" "" with
      | Option.none => Option.none
      | some nm =>
        match strDictGet entry "Description" "" with
        | Option.none => Option.none
        | some desc => some { userID := uid, name := nm, description := desc,
                              carNumber := d.carNumber }

/-- The driver loop of TelemetryListener._run: fold over the live Drivers
array in source order, appending each processed entry. -/
def filterDrivers (proMap : List (Int × String)) (drivers : List Driver) :
    List ProEntry :=
  drivers.foldl
    (fun acc d =>
      match processDriver proMap d with
      | some e => acc ++ [e]
      | Option.none => acc)
    []

/-- Result of reading DriverInfo inside the active branch: the read raised
(caught and replaced by an empty list), the value was not a dict (the
isinstance test fails, empty list), or a dict whose Drivers entry supplied
the given list (drv.get with default empty list). -/
inductive DriverInfoRead where
  | readError
  | notADict
  | dict (drivers : List Driver)
  deriving DecidableEq, Repr

/-- The live-driver list the tick works with, as extracted from the
DriverInfo read. -/
def driversOf : DriverInfoRead → List Driver
  | DriverInfoRead.readError => []
  | DriverInfoRead.notADict => []
  | DriverInfoRead.dict ds => ds

/-- What the telemetry source presents on one tick: the two connection
flags, the two session fields (Option.none modelling a KeyError on the
indexed read), and the DriverInfo read outcome. -/
structure TelemetrySnapshot where
  is_initialized : Bool
  is_connected : Bool
  sessionState : Option Int
  isOnTrack : Option Int
  driverInfo : DriverInfoRead
  deriving DecidableEq, Repr

/-- The two field reads of the tick with their shared KeyError handler: if
either read raises, both variables are set to 0. -/
def sentinelFields (snap : TelemetrySnapshot) : Int × Int :=
  match snap.sessionState, snap.isOnTrack with
  | some s, some t => (s, t)
  | _, _ => (0, 0)

/-- Input of one iteration of the polling loop: either the body raised an
unexpected exception before reaching the first emit call (modelling the
outer except handler), or a telemetry snapshot together with the mapping
that the tick's get_pro_list call returned. -/
inductive TickInput where
  | fault
  | ok (snap : TelemetrySnapshot) (proMap : List (Int × String))
  deriving DecidableEq, Repr

/-- The signals one loop iteration emits, in order: the session_active
emissions and the drivers_updated emissions. -/
structure TickEmits where
  flags : List Bool
  lists : List (List ProEntry)
  deriving DecidableEq, Repr

/-- Model of one iteration of the while loop in TelemetryListener._run.
When the source is not initialized and connected, only session_active False
is emitted; otherwise the active flag is computed and emitted, and exactly
one drivers_updated emission follows: the filtered list when active, the
empty list otherwise. A faulting iteration is caught by the outer except
and emits nothing. -/
def tick : TickInput → TickEmits
  | TickInput.fault => { flags := [], lists := [] }
  | TickInput.ok snap proMap =>
    if !(snap.is_initialized && snap.is_connected) then
      { flags := [false], lists := [] }
    else
      let fields := sentinelFields snap
      let active := (fields.1 == 4) && (fields.2 == 1)
      if active then
        { flags := [active], lists := [filterDrivers proMap (driversOf snap.driverInfo)] }
      else
        { flags := [active], lists := [[]] }

/-- The polling loop over a finite schedule of iteration inputs. -/
def runTicks (inputs : List TickInput) : List TickEmits :=
  inputs.map tick

/-- What the subscriber (the overlay) currently shows: the last emitted
active flag and the last emitted entry list. The overlay starts hidden with
an empty list widget. -/
structure ObsState where
  visible : Bool
  entries : List ProEntry
  deriving DecidableEq, Repr

/-- Applying one iteration's emissions to the subscriber state, in emission
order. -/
def applyEmits (o : ObsState) (e : TickEmits) : ObsState :=
  { visible := e.flags.foldl (fun _ b => b) o.visible,
    entries := e.lists.foldl (fun _ l => l) o.entries }

/-- Subscriber state after the loop has processed the given inputs, starting
from the overlay's initial state. -/
def observedAfter (inputs : List TickInput) : ObsState :=
  inputs.foldl (fun o i => applyEmits o (tick i)) { visible := false, entries := [] }

/-! ## Properties of the integer serialisation -/

theorem natDigitsRev_zero : natDigitsRev 0 = [] := by
  unfold natDigitsRev
  simp

theorem natDigitsRev_of_ne (n : Nat) (h : n ≠ 0) :
    natDigitsRev n = Nat.digitChar (n % 10) :: natDigitsRev (n / 10) := by
  conv_lhs => unfold natDigitsRev
  simp [h]

theorem natDigitsRev_ne_nil (n : Nat) (h : n ≠ 0) : natDigitsRev n ≠ [] := by
  rw [natDigitsRev_of_ne n h]
  simp

theorem digitVal_digitChar (d : Nat) (h : d < 10) :
    digitVal (Nat.digitChar d) = some d := by
  interval_cases d <;> decide

theorem mem_natDigitsRev (n : Nat) :
    ∀ c ∈ natDigitsRev n, ∃ d, d < 10 ∧ c = Nat.digitChar d := by
  induction n using Nat.strong_induction_on with
  | _ n ih =>
    intro c hc
    by_cases h : n = 0
    · rw [h, natDigitsRev_zero] at hc
      cases hc
    · rw [natDigitsRev_of_ne n h] at hc
      rcases List.mem_cons.mp hc with h1 | h2
      · exact ⟨n % 10, Nat.mod_lt _ (by norm_num), h1⟩
      · exact ih (n / 10) (Nat.div_lt_self (Nat.pos_of_ne_zero h) (by norm_num)) c h2

theorem parseDigitsAcc_append (acc : Nat) (xs ys : List Char) :
    parseDigitsAcc acc (xs ++ ys) =
      match parseDigitsAcc acc xs with
      | some a => parseDigitsAcc a ys
      | Option.none => Option.none := by
  induction xs generalizing acc with
  | nil => simp [parseDigitsAcc]
  | cons c cs ih =>
    cases hd : digitVal c <;> simp [parseDigitsAcc, hd, ih]

theorem parseDigitsAcc_singleton_digit (a n : Nat) :
    parseDigitsAcc a [Nat.digitChar (n % 10)] = some (a * 10 + n % 10) := by
  have hm : n % 10 < 10 := Nat.mod_lt _ (by norm_num)
  simp [parseDigitsAcc, digitVal_digitChar _ hm]

theorem parseDigitsAcc_digitsRev (n : Nat) : ∀ acc : Nat,
    parseDigitsAcc acc (natDigitsRev n).reverse =
      some (acc * 10 ^ (natDigitsRev n).length + n) := by
  induction n using Nat.strong_induction_on with
  | _ n ih =>
    intro acc
    by_cases h : n = 0
    · subst h
      simp [natDigitsRev_zero, parseDigitsAcc]
    · have hlt : n / 10 < n := Nat.div_lt_self (Nat.pos_of_ne_zero h) (by norm_num)
      rw [natDigitsRev_of_ne n h]
      simp only [List.reverse_cons, List.length_cons]
      rw [parseDigitsAcc_append, ih (n / 10) hlt acc]
      show parseDigitsAcc (acc * 10 ^ (natDigitsRev (n / 10)).length + n / 10)
          [Nat.digitChar (n % 10)] = _
      rw [parseDigitsAcc_singleton_digit]
      have h1 : (acc * 10 ^ (natDigitsRev (n / 10)).length + n / 10) * 10 + n % 10 =
          acc * 10 ^ ((natDigitsRev (n / 10)).length + 1) + (n / 10 * 10 + n % 10) := by
        ring
      have h2 : n / 10 * 10 + n % 10 = n := by omega
      rw [h1, h2]

theorem parseNatDigits_digitsRev (n : Nat) (h : n ≠ 0) :
    parseNatDigits (natDigitsRev n).reverse = some n := by
  have h0 := parseDigitsAcc_digitsRev n 0
  cases hrev : (natDigitsRev n).reverse with
  | nil => exact absurd (List.reverse_eq_nil_iff.mp hrev) (natDigitsRev_ne_nil n h)
  | cons c cs =>
    rw [hrev] at h0
    simpa [parseNatDigits] using h0

theorem head_digitsRev_not_sign (n : Nat) (c : Char) (cs : List Char)
    (h : (natDigitsRev n).reverse = c :: cs) : c ≠ '-' ∧ c ≠ '+' := by
  have hc : c ∈ natDigitsRev n := by
    rw [← List.mem_reverse, h]
    exact List.mem_cons_self c cs
  obtain ⟨d, hd, hcd⟩ := mem_natDigitsRev n c hc
  subst hcd
  refine ⟨?_, ?_⟩ <;> (interval_cases d <;> decide)

/-- Round-trip of the Python integer serialisation: int applied to str of an
integer yields the integer back. -/
theorem pyIntOfStr_pyStrInt (k : Int) : pyIntOfStr (pyStrInt k) = some k := by
  cases k with
  | ofNat m =>
    by_cases hm : m = 0
    · subst hm
      decide
    · show pyIntOfStr (pyStrNat m) = some (Int.ofNat m)
      rw [pyStrNat, if_neg hm]
      cases hrev : (natDigitsRev m).reverse with
      | nil => exact absurd (List.reverse_eq_nil_iff.mp hrev) (natDigitsRev_ne_nil m hm)
      | cons c cs =>
        obtain ⟨hn, hp⟩ := head_digitsRev_not_sign m c cs hrev
        show pyIntOfChars (c :: cs) = some (Int.ofNat m)
        simp only [pyIntOfChars, if_neg hn, if_neg hp]
        rw [← hrev, parseNatDigits_digitsRev m hm, Option.map_some']
  | negSucc m =>
    show pyIntOfStr ("-" ++ pyStrNat (m + 1)) = some (Int.negSucc m)
    have hdata : ("-" ++ pyStrNat (m + 1)).data = '-' :: (pyStrNat (m + 1)).data := by
      have h1 : ("-" : String).data = ['-'] := rfl
      simp [String.data_append, h1]
    rw [pyIntOfStr, hdata]
    simp only [pyIntOfChars, if_pos rfl]
    have h1 : (pyStrNat (m + 1)).data = (natDigitsRev (m + 1)).reverse := by
      rw [pyStrNat, if_neg (Nat.succ_ne_zero m)]
    rw [h1, parseNatDigits_digitsRev (m + 1) (Nat.succ_ne_zero m), Option.map_some']
    rw [Int.negSucc_eq]
    norm_num

/-! ## Properties of the listener's driver loop -/

/-- Every iteration of the driver loop skips its driver: whenever the id is
a key of pro_map, the attribute access entry.get on the string value raises
AttributeError, which the per-driver except swallows. -/
theorem processDriver_eq_none (proMap : List (Int × String)) (d : Driver) :
    processDriver proMap d = Option.none := by
  unfold processDriver
  split
  · rfl
  · split
    · rfl
    · simp [strDictGet]

/-- The pro_drivers list the listener builds is empty for every mapping and
every live driver list. -/
theorem filterDrivers_eq_nil (proMap : List (Int × String)) (drivers : List Driver) :
    filterDrivers proMap drivers = [] := by
  unfold filterDrivers
  suffices h : ∀ acc : List ProEntry,
      drivers.foldl
        (fun acc d =>
          match processDriver proMap d with
          | some e => acc ++ [e]
          | Option.none => acc)
        acc = acc from h []
  induction drivers with
  | nil => intro acc; rfl
  | cons d ds ih =>
    intro acc
    have hstep :
        (match processDriver proMap d with
          | some e => acc ++ [e]
          | Option.none => acc) = acc := by
      rw [processDriver_eq_none]
    simp only [List.foldl_cons, hstep]
    exact ih acc

/-- Unfolding equation for a non-faulting tick. -/
theorem tick_ok_eq (snap : TelemetrySnapshot) (proMap : List (Int × String)) :
    tick (TickInput.ok snap proMap) =
      if !(snap.is_initialized && snap.is_connected) then
        { flags := [false], lists := [] }
      else if ((sentinelFields snap).1 == 4) && ((sentinelFields snap).2 == 1) then
        { flags := [((sentinelFields snap).1 == 4) && ((sentinelFields snap).2 == 1)],
          lists := [filterDrivers proMap (driversOf snap.driverInfo)] }
      else
        { flags := [((sentinelFields snap).1 == 4) && ((sentinelFields snap).2 == 1)],
          lists := [[]] } := rfl

/-- Every drivers_updated emission of any tick is the empty list. -/
theorem tick_lists_nil (i : TickInput) :
    ∀ l ∈ (tick i).lists, l = [] := by
  intro l hl
  cases i with
  | fault => simp [tick] at hl
  | ok snap proMap =>
    by_cases hg : (!(snap.is_initialized && snap.is_connected)) = true
    · rw [tick_ok_eq, if_pos hg] at hl
      simp at hl
    · rw [tick_ok_eq, if_neg hg] at hl
      by_cases ha : (((sentinelFields snap).1 == 4) && ((sentinelFields snap).2 == 1)) = true
      · rw [if_pos ha] at hl
        simp only [List.mem_singleton] at hl
        rw [hl]
        exact filterDrivers_eq_nil proMap (driversOf snap.driverInfo)
      · rw [if_neg ha] at hl
        simp at hl
        exact hl

theorem foldl_lists_nil (ls : List (List ProEntry))
    (h : ∀ l ∈ ls, l = []) (e : List ProEntry) (he : e = []) :
    ls.foldl (fun _ l => l) e = [] := by
  induction ls generalizing e with
  | nil => simpa using he
  | cons l rest ih =>
    simp only [List.foldl_cons]
    exact ih (fun x hx => h x (List.mem_cons_of_mem l hx)) l (h l (List.mem_cons_self l rest))

theorem applyEmits_entries_nil (o : ObsState) (i : TickInput) (ho : o.entries = []) :
    (applyEmits o (tick i)).entries = [] := by
  unfold applyEmits
  exact foldl_lists_nil _ (tick_lists_nil i) o.entries ho

/-- The subscriber's entry list is empty after any run of the loop. -/
theorem observedAfter_entries_nil (inputs : List TickInput) :
    (observedAfter inputs).entries = [] := by
  unfold observedAfter
  suffices h : ∀ o : ObsState, o.entries = [] →
      (inputs.foldl (fun o i => applyEmits o (tick i)) o).entries = [] from h _ rfl
  induction inputs with
  | nil =>
    intro o ho
    exact ho
  | cons i rest ih =>
    intro o ho
    simp only [List.foldl_cons]
    exact ih _ (applyEmits_entries_nil o i ho)

/-! ## Properties of the cache and the refresh policy -/

theorem dictInsert_of_not_hasKey (d : List (Int × String)) (k : Int) (v : String)
    (h : hasKey d k = false) : dictInsert d k v = d ++ [(k, v)] := by
  simp [dictInsert, h]

theorem hasKey_append (d e : List (Int × String)) (k : Int) :
    hasKey (d ++ e) k = (hasKey d k || hasKey e k) := by
  simp [hasKey, List.any_append]

/-- Reading back a cache file written from a mapping with distinct keys
rebuilds the mapping, entry by entry, onto any accumulator disjoint from it. -/
theorem readEntries_write (m : List (Int × String)) : ∀ acc : List (Int × String),
    (∀ k ∈ m.map Prod.fst, hasKey acc k = false) → (m.map Prod.fst).Nodup →
    readEntries (m.map (fun p => (pyStrInt p.1, PyVal.vStr p.2))) acc = some (acc ++ m) := by
  induction m with
  | nil =>
    intro acc _ _
    simp [readEntries]
  | cons p rest ih =>
    intro acc hdisj hnd
    obtain ⟨k, v⟩ := p
    simp only [List.map_cons]
    rw [show readEntries ((pyStrInt k, PyVal.vStr v) ::
        rest.map (fun p => (pyStrInt p.1, PyVal.vStr p.2))) acc =
        (match pyIntOfStr (pyStrInt k) with
          | some u => readEntries (rest.map (fun p => (pyStrInt p.1, PyVal.vStr p.2)))
              (dictInsert acc u (pyToStr (PyVal.vStr v)))
          | Option.none => Option.none) from rfl]
    rw [pyIntOfStr_pyStrInt k]
    show readEntries (rest.map (fun p => (pyStrInt p.1, PyVal.vStr p.2)))
        (dictInsert acc k (pyToStr (PyVal.vStr v))) = some (acc ++ (k, v) :: rest)
    have hk : hasKey acc k = false := hdisj k (by simp)
    have hstep : dictInsert acc k (pyToStr (PyVal.vStr v)) = acc ++ [(k, v)] := by
      rw [show pyToStr (PyVal.vStr v) = v from rfl]
      exact dictInsert_of_not_hasKey acc k v hk
    rw [hstep]
    have hnd' : (rest.map Prod.fst).Nodup := by
      simpa using hnd.of_cons
    have hks : k ∉ rest.map Prod.fst := by
      have := hnd
      simp only [List.map_cons, List.nodup_cons] at this
      exact this.1
    have hdisj' : ∀ k' ∈ rest.map Prod.fst, hasKey (acc ++ [(k, v)]) k' = false := by
      intro k' hk'
      rw [hasKey_append]
      have h1 : hasKey acc k' = false := hdisj k' (by simp [hk'])
      have h2 : hasKey [(k, v)] k' = false := by
        have hne : k ≠ k' := by
          intro hEq
          exact hks (hEq ▸ hk')
        simp [hasKey, hne]
      rw [h1, h2]
      rfl
    rw [ih (acc ++ [(k, v)]) hdisj' hnd']
    simp

/-- On every failure of the fetch (network error, raise_for_status on a
4xx/5xx status, malformed JSON body), fetch_and_cache_pro_list returns the
cache contents and leaves the whole persistent state unchanged. -/
theorem fetch_fail_state (st : ProState) (now : ℚ) (f : FetchOutcome)
    (h : fetchSucceeds f = false) :
    fetch_and_cache_pro_list st now f = (read_cache st.cacheFile, st) := by
  cases f with
  | netError => rfl
  | httpResponse status body =>
    by_cases hp : 400 ≤ status ∧ status < 600
    · simp only [fetch_and_cache_pro_list, if_pos hp]
    · simp only [fetchSucceeds] at h
      rw [decide_eq_false hp] at h
      simp only [Bool.not_false, Bool.true_and] at h
      cases body with
      | none => simp only [fetch_and_cache_pro_list, if_neg hp]
      | some items => simp at h

/-- On transport success the parsed mapping, empty or not, is written to the
cache file and the timestamp is stamped with the current time. -/
theorem fetch_succ_state (st : ProState) (now : ℚ) (status : Nat)
    (items : List FetchItem) (h : ¬(400 ≤ status ∧ status < 600)) :
    fetch_and_cache_pro_list st now (FetchOutcome.httpResponse status (some items)) =
      (parseItems items,
        { cacheFile := write_cache (parseItems items), lastProUpdate := some now }) := by
  simp only [fetch_and_cache_pro_list, if_neg h]
  rfl

theorem get_pro_list_no_refresh (st : ProState) (now : ℚ) (force : Bool)
    (f : FetchOutcome) (h : refreshCondition st now force = false) :
    get_pro_list st now force f =
      { mapping := read_cache st.cacheFile, state := st, fetchAttempted := false } := by
  unfold get_pro_list
  simp [h]

theorem get_pro_list_state (st : ProState) (now : ℚ) (force : Bool)
    (f : FetchOutcome) (h : refreshCondition st now force = true) :
    (get_pro_list st now force f).state = (fetch_and_cache_pro_list st now f).2 := by
  unfold get_pro_list
  rw [if_pos h]
  by_cases he : (fetch_and_cache_pro_list st now f).1.isEmpty = true
  · rw [if_pos he]
  · rw [if_neg he]

/-- The instrumentation bit records exactly the source's refresh test. -/
theorem get_pro_list_fetchAttempted (st : ProState) (now : ℚ) (force : Bool)
    (f : FetchOutcome) :
    (get_pro_list st now force f).fetchAttempted = refreshCondition st now force := by
  by_cases h : refreshCondition st now force = true
  · unfold get_pro_list
    rw [if_pos h, h]
    by_cases he : (fetch_and_cache_pro_list st now f).1.isEmpty = true
    · rw [if_pos he]
    · rw [if_neg he]
  · rw [get_pro_list_no_refresh st now force f (by simpa using h)]
    simp [Bool.eq_false_iff.mpr h]

/-! ## The claims -/

/-- C1: evaluation of the driver-loop filter at the claim's own input. The
claim expects the entries for ids 1 and 3; the code emits the empty list,
because get_pro_list maps ids to plain name strings and entry.get on a
string raises AttributeError, so the per-driver except skips every matched
driver. The active tick built from this input emits that empty list. -/
theorem claim_c1_failing_eval :
    filterDrivers [(1, "Alice"), (3, "Carol")]
        [ { userID := PyVal.vInt 1, carNumber := PyVal.vStr "12" },
          { userID := PyVal.vInt 2, carNumber := PyVal.vStr "7" },
          { userID := PyVal.vInt 3, carNumber := PyVal.vStr "9" } ] = [] ∧
    filterDrivers [(1, "Alice"), (3, "Carol")]
        [ { userID := PyVal.vInt 1, carNumber := PyVal.vStr "12" },
          { userID := PyVal.vInt 2, carNumber := PyVal.vStr "7" },
          { userID := PyVal.vInt 3, carNumber := PyVal.vStr "9" } ] ≠
      [ { userID := 1, name := "Alice", description := "", carNumber := PyVal.vStr "12" },
        { userID := 3, name := "Carol", description := "", carNumber := PyVal.vStr "9" } ] ∧
    (tick (TickInput.ok
        { is_initialized := true, is_connected := true, sessionState := some 4,
          isOnTrack := some 1,
          driverInfo := DriverInfoRead.dict
            [ { userID := PyVal.vInt 1, carNumber := PyVal.vStr "12" },
              { userID := PyVal.vInt 2, carNumber := PyVal.vStr "7" },
              { userID := PyVal.vInt 3, carNumber := PyVal.vStr "9" } ] }
        [(1, "Alice"), (3, "Carol")])).lists = [[]] := by
  refine ⟨?_, ?_, ?_⟩ <;> decide

/-- C2: on every tick with the source initialized and connected, the flag
emitted by session_active equals session_state equal to 4 and on_track equal
to 1 evaluated on the tick's sentinel-adjusted field values (both fields
become 0 when either read raises KeyError), and exactly one flag emission
happens on the tick whatever the previous ticks emitted. -/
theorem claim_c2_active_flag (snap : TelemetrySnapshot) (proMap : List (Int × String))
    (h1 : snap.is_initialized = true) (h2 : snap.is_connected = true) :
    (tick (TickInput.ok snap proMap)).flags =
      [decide ((sentinelFields snap).1 = 4 ∧ (sentinelFields snap).2 = 1)] := by
  rw [tick_ok_eq]
  have hg : ¬((!(snap.is_initialized && snap.is_connected)) = true) := by
    rw [h1, h2]
    simp
  rw [if_neg hg]
  by_cases hx : (sentinelFields snap).1 = 4 <;>
    by_cases hy : (sentinelFields snap).2 = 1 <;>
      simp [hx, hy]

theorem claim_c2_witness :
    (tick (TickInput.ok
        { is_initialized := true, is_connected := true, sessionState := some 4,
          isOnTrack := some 1, driverInfo := DriverInfoRead.dict [] } [])).flags =
      [decide ((sentinelFields
          { is_initialized := true, is_connected := true, sessionState := some 4,
            isOnTrack := some 1, driverInfo := DriverInfoRead.dict [] }).1 = 4 ∧
        (sentinelFields
          { is_initialized := true, is_connected := true, sessionState := some 4,
            isOnTrack := some 1, driverInfo := DriverInfoRead.dict [] }).2 = 1)] :=
  claim_c2_active_flag _ _ rfl rfl

/-- C8: during any span in which the source is not initialized or not
connected, every such tick emits session_active false, and the entry list
the subscriber observes at any such tick (after any history whatsoever) is
empty. -/
theorem claim_c8_disconnected_span (pre : List TickInput) (snap : TelemetrySnapshot)
    (proMap : List (Int × String))
    (h : ¬(snap.is_initialized = true ∧ snap.is_connected = true)) :
    (tick (TickInput.ok snap proMap)).flags = [false] ∧
    (observedAfter (pre ++ [TickInput.ok snap proMap])).entries = [] := by
  constructor
  · rw [tick_ok_eq]
    have hg : (!(snap.is_initialized && snap.is_connected)) = true := by
      cases hi : snap.is_initialized <;> cases hc : snap.is_connected <;> simp_all
    rw [if_pos hg]
  · exact observedAfter_entries_nil (pre ++ [TickInput.ok snap proMap])

theorem claim_c8_witness :
    (tick (TickInput.ok
        { is_initialized := false, is_connected := false, sessionState := Option.none,
          isOnTrack := Option.none, driverInfo := DriverInfoRead.readError } [])).flags =
      [false] ∧
    (observedAfter ([] ++ [TickInput.ok
        { is_initialized := false, is_connected := false, sessionState := Option.none,
          isOnTrack := Option.none, driverInfo := DriverInfoRead.readError } []])).entries =
      [] :=
  claim_c8_disconnected_span [] _ [] (by simp)

/-- C9, as stated, is false: on a tick whose body raises before the first
emit call, the outer except of the loop emits nothing at all, rather than
an inactive flag with an empty list. -/
theorem claim_c9_counterexample :
    (tick TickInput.fault).flags = [] ∧ (tick TickInput.fault).lists = [] ∧
    ¬((tick TickInput.fault).flags = [false] ∧ (tick TickInput.fault).lists = [[]]) := by
  refine ⟨rfl, rfl, ?_⟩
  intro hcl
  simp [tick] at hcl

/-- C9 amended: an unexpected exception in a tick is caught by the outer
except of the loop body, the tick emits no flag and no entry list, and the
polling loop goes on to process the remaining ticks unchanged. -/
theorem claim_c9_amended (rest : List TickInput) :
    runTicks (TickInput.fault :: rest) =
      { flags := [], lists := [] } :: runTicks rest := by
  simp [runTicks, tick]

/-- C5: writing any mapping with distinct keys to the cache file and reading
it back yields the same mapping, keys and records alike (the empty mapping
included, as the nil case of the quantifier). -/
theorem claim_c5_roundtrip (m : List (Int × String)) (h : (m.map Prod.fst).Nodup) :
    read_cache (write_cache m) = m := by
  show (readEntries (m.map (fun p => (pyStrInt p.1, PyVal.vStr p.2))) []).getD [] = m
  rw [readEntries_write m [] (fun k _ => rfl) h]
  simp

theorem claim_c5_witness :
    (([((1 : Int), "Alice"), (3, "Carol")]).map Prod.fst).Nodup ∧
    read_cache (write_cache [((1 : Int), "Alice"), (3, "Carol")]) =
      [((1 : Int), "Alice"), (3, "Carol")] :=
  ⟨by decide, claim_c5_roundtrip [((1 : Int), "Alice"), (3, "Carol")] (by decide)⟩

/-- C3, as stated, is false: a fetch that succeeds with an empty parsed
mapping still persists (it overwrites the cache file with the empty object)
and still advances last_pro_update, exhibited here on a state whose cache
held one entry and whose timestamp was 0. -/
theorem claim_c3_counterexample :
    fetchSucceeds (FetchOutcome.httpResponse 200 (some [])) = true ∧
    parseItems [] = [] ∧
    (get_pro_list
        { cacheFile := CacheFile.object [("1", PyVal.vStr "Alice")], lastProUpdate := some 0 }
        100000 false (FetchOutcome.httpResponse 200 (some []))).state =
      { cacheFile := CacheFile.object [], lastProUpdate := some 100000 } ∧
    (CacheFile.object [] : CacheFile) ≠ CacheFile.object [("1", PyVal.vStr "Alice")] := by
  refine ⟨rfl, rfl, ?_, by decide⟩
  have hcond : refreshCondition
      { cacheFile := CacheFile.object [("1", PyVal.vStr "Alice")], lastProUpdate := some 0 }
      100000 false = true := by
    simp only [refreshCondition, get_last_pro_update, Option.getD_some, Bool.false_or,
      decide_eq_true_eq]
    norm_num
  rw [get_pro_list_state _ _ _ _ hcond, fetch_succ_state _ _ _ _ (by norm_num)]
  rfl

/-- C3 amended: when a refresh is attempted and the fetch fails in
transport, the call falls through to the unchanged cache and returns its
mapping; when the fetch succeeds with an empty parsed mapping, the empty
mapping is persisted to the cache file and last_pro_update advances to now
(exactly as on any transport success), and the call returns the freshly
reread, now empty, cache. -/
theorem claim_c3_amended (st : ProState) (now : ℚ) (force : Bool) (items : List FetchItem)
    (hcond : refreshCondition st now force = true) (hempty : parseItems items = []) :
    get_pro_list st now force FetchOutcome.netError =
      { mapping := read_cache st.cacheFile, state := st, fetchAttempted := true } ∧
    get_pro_list st now force (FetchOutcome.httpResponse 200 (some items)) =
      { mapping := [],
        state := { cacheFile := write_cache [], lastProUpdate := some now },
        fetchAttempted := true } := by
  constructor
  · have hf : fetch_and_cache_pro_list st now FetchOutcome.netError =
        (read_cache st.cacheFile, st) := rfl
    unfold get_pro_list
    rw [if_pos hcond, hf]
    by_cases he : ((read_cache st.cacheFile, st).1).isEmpty = true
    · rw [if_pos he]
    · rw [if_neg he]
  · have hf2 := fetch_succ_state st now 200 items (by norm_num)
    unfold get_pro_list
    rw [if_pos hcond, hf2, hempty]
    simp [read_cache, write_cache, readEntries]

theorem claim_c3_witness :
    get_pro_list { cacheFile := CacheFile.missing, lastProUpdate := some 0 }
        100000 false FetchOutcome.netError =
      { mapping := read_cache CacheFile.missing,
        state := { cacheFile := CacheFile.missing, lastProUpdate := some 0 },
        fetchAttempted := true } ∧
    get_pro_list { cacheFile := CacheFile.missing, lastProUpdate := some 0 }
        100000 false (FetchOutcome.httpResponse 200 (some [])) =
      { mapping := [],
        state := { cacheFile := write_cache [], lastProUpdate := some 100000 },
        fetchAttempted := true } :=
  claim_c3_amended _ _ _ _
    (by
      simp only [refreshCondition, get_last_pro_update, Option.getD_some, Bool.false_or,
        decide_eq_true_eq]
      norm_num)
    rfl

/-- C4: with force_refresh true a fetch is attempted whatever the stored
timestamp; if the fetch succeeds the persisted last_pro_update strictly
increases (given the clock reads increase, as the spec's monotonic
wall-clock assumption grants), and if the fetch fails the persisted
timestamp is unchanged. -/
theorem claim_c4_force_refresh (st : ProState) (now : ℚ) (f : FetchOutcome) :
    (get_pro_list st now true f).fetchAttempted = true ∧
    (fetchSucceeds f = true → get_last_pro_update st < now →
      get_last_pro_update st < get_last_pro_update (get_pro_list st now true f).state) ∧
    (fetchSucceeds f = false →
      (get_pro_list st now true f).state.lastProUpdate = st.lastProUpdate) := by
  have hcond : refreshCondition st now true = true := by
    simp [refreshCondition]
  refine ⟨?_, ?_, ?_⟩
  · rw [get_pro_list_fetchAttempted, hcond]
  · intro hs hlt
    rw [get_pro_list_state _ _ _ _ hcond]
    cases f with
    | netError => simp [fetchSucceeds] at hs
    | httpResponse status body =>
      cases body with
      | none => simp [fetchSucceeds] at hs
      | some items =>
        have hp : ¬(400 ≤ status ∧ status < 600) := by
          intro hcontra
          rw [show fetchSucceeds (FetchOutcome.httpResponse status (some items)) =
            ((!(decide (400 ≤ status ∧ status < 600))) && (some items).isSome) from rfl,
            decide_eq_true hcontra] at hs
          simp at hs
        rw [fetch_succ_state _ _ _ _ hp]
        simpa [get_last_pro_update] using hlt
  · intro hs
    rw [get_pro_list_state _ _ _ _ hcond, fetch_fail_state _ _ _ hs]

theorem claim_c4_witness :
    get_last_pro_update { cacheFile := CacheFile.missing, lastProUpdate := some 0 } <
      get_last_pro_update (get_pro_list
        { cacheFile := CacheFile.missing, lastProUpdate := some 0 }
        100 true (FetchOutcome.httpResponse 200 (some []))).state ∧
    (get_pro_list { cacheFile := CacheFile.missing, lastProUpdate := some 0 }
        100 true FetchOutcome.netError).state.lastProUpdate = some 0 :=
  ⟨(claim_c4_force_refresh _ _ _).2.1 (by decide)
      (by
        simp only [get_last_pro_update, Option.getD_some]
        norm_num),
    (claim_c4_force_refresh _ _ _).2.2 rfl⟩

/-- C6: a refresh attempt whose fetch returns a non-success HTTP status
(any status raise_for_status rejects, 500 among them) leaves the whole
persistent state, the cache file in particular, unchanged: no write to the
cache occurs on the transport-failure path. -/
theorem claim_c6_http_error (st : ProState) (now : ℚ) (force : Bool) (status : Nat)
    (body : Option (List FetchItem)) (h1 : 400 ≤ status) (h2 : status < 600) :
    (fetch_and_cache_pro_list st now (FetchOutcome.httpResponse status body)).2 = st ∧
    (get_pro_list st now force (FetchOutcome.httpResponse status body)).state.cacheFile =
      st.cacheFile := by
  have hfail : fetchSucceeds (FetchOutcome.httpResponse status body) = false := by
    rw [show fetchSucceeds (FetchOutcome.httpResponse status body) =
      ((!(decide (400 ≤ status ∧ status < 600))) && body.isSome) from rfl,
      decide_eq_true ⟨h1, h2⟩]
    simp
  have hstate := fetch_fail_state st now _ hfail
  constructor
  · rw [hstate]
  · by_cases hc : refreshCondition st now force = true
    · rw [get_pro_list_state _ _ _ _ hc, hstate]
    · rw [get_pro_list_no_refresh _ _ _ _ (by simpa using hc)]

theorem claim_c6_witness :
    (fetch_and_cache_pro_list
        { cacheFile := CacheFile.malformed "junk", lastProUpdate := Option.none }
        0 (FetchOutcome.httpResponse 500 Option.none)).2 =
      { cacheFile := CacheFile.malformed "junk", lastProUpdate := Option.none } ∧
    (get_pro_list { cacheFile := CacheFile.malformed "junk", lastProUpdate := Option.none }
        0 true (FetchOutcome.httpResponse 500 Option.none)).state.cacheFile =
      CacheFile.malformed "junk" :=
  claim_c6_http_error _ _ _ _ _ (by norm_num) (by norm_num)

/-- C7: get_pro_list attempts a fetch exactly when force_refresh is set or
now minus the stored last update strictly exceeds the 24-hour refresh
interval; at exactly the interval boundary no fetch is attempted. -/
theorem claim_c7_policy (st : ProState) (now : ℚ) (force : Bool) (f : FetchOutcome) :
    (get_pro_list st now force f).fetchAttempted =
      (force || decide (now - get_last_pro_update st > 24 * 3600)) ∧
    (now - get_last_pro_update st = 24 * 3600 →
      (get_pro_list st now false f).fetchAttempted = false) := by
  constructor
  · rw [get_pro_list_fetchAttempted]
    rfl
  · intro h
    rw [get_pro_list_fetchAttempted]
    simp only [refreshCondition, Bool.false_or, h, decide_eq_false_iff_not]
    exact lt_irrefl _

theorem claim_c7_witness :
    (get_pro_list { cacheFile := CacheFile.missing, lastProUpdate := some 0 }
        86400 false FetchOutcome.netError).fetchAttempted = false ∧
    (get_pro_list { cacheFile := CacheFile.missing, lastProUpdate := some 0 }
        86400 true FetchOutcome.netError).fetchAttempted =
      (true || decide ((86400 : ℚ) -
        get_last_pro_update { cacheFile := CacheFile.missing, lastProUpdate := some 0 } >
        24 * 3600)) :=
  ⟨(claim_c7_policy _ _ false FetchOutcome.netError).2
      (by
        simp only [get_last_pro_update, Option.getD_some]
        norm_num),
    (claim_c7_policy _ _ true FetchOutcome.netError).1⟩

/-- C10: a get_pro_list call without force_refresh made while the mapping is
not stale attempts no fetch: the result does not depend on the network at
all, the cache file and the stored timestamp stay unchanged, and the call
returns exactly what _read_cache yields at that moment. -/
theorem claim_c10_fresh_no_fetch (st : ProState) (now : ℚ) (f : FetchOutcome)
    (h : now - get_last_pro_update st ≤ 24 * 3600) :
    get_pro_list st now false f =
      { mapping := read_cache st.cacheFile, state := st, fetchAttempted := false } := by
  have hc : refreshCondition st now false = false := by
    simp only [refreshCondition, Bool.false_or, decide_eq_false_iff_not]
    exact not_lt.mpr h
  exact get_pro_list_no_refresh st now false f hc

theorem claim_c10_witness :
    get_pro_list { cacheFile := CacheFile.missing, lastProUpdate := some 0 }
        100 false FetchOutcome.netError =
      { mapping := read_cache CacheFile.missing,
        state := { cacheFile := CacheFile.missing, lastProUpdate := some 0 },
        fetchAttempted := false } :=
  claim_c10_fresh_no_fetch _ _ _
    (by
      simp only [get_last_pro_update, Option.getD_some]
      norm_num)
